import Mathlib

/-!
Shallow embedding of the VideoIMUFusion analysis plugin
(`plugins/videoimufusion/VideoIMUFusion.cpp`): the two-phase
calibration/fusion controller, its startup accumulator, and the running
Kalman-filter wrapper.  Doubles (`double`) are modelled as rationals;
Eigen isometries are modelled as a unit quaternion plus a translation
vector, with composition and inverse defined the way Eigen computes them
for rigid transforms.
-/

/-- Timestamps as in `OSVR_TimeValue`: a seconds field and a microseconds
field. -/
structure OSVRTimeValue where
  seconds : Int
  microseconds : Int
  deriving DecidableEq

/-- `secondsElapsed` from VideoIMUFusion.cpp: elapsed time in seconds between
two timestamps, `(later.microseconds - earlier.microseconds) / 1000000.0 +
(later.seconds - earlier.seconds)`. -/
def secondsElapsed (earlier later : OSVRTimeValue) : ℚ :=
  (later.microseconds - earlier.microseconds : ℚ) / 1000000 +
    (later.seconds - earlier.seconds : ℚ)

/-- A 3-vector of rationals (Eigen::Vector3d). -/
structure Vec3 where
  x : ℚ
  y : ℚ
  z : ℚ
  deriving DecidableEq

instance : Add Vec3 :=
  ⟨fun a b => ⟨a.x + b.x, a.y + b.y, a.z + b.z⟩⟩

instance : Neg Vec3 :=
  ⟨fun a => ⟨-a.x, -a.y, -a.z⟩⟩

/-- A quaternion (Eigen::Quaterniond), components w + xi + yj + zk. -/
structure Quat where
  w : ℚ
  x : ℚ
  y : ℚ
  z : ℚ
  deriving DecidableEq

/-- Hamilton product of quaternions, as Eigen computes rotation
composition. -/
def Quat.mul (a b : Quat) : Quat :=
  ⟨a.w * b.w - a.x * b.x - a.y * b.y - a.z * b.z,
   a.w * b.x + a.x * b.w + a.y * b.z - a.z * b.y,
   a.w * b.y - a.x * b.z + a.y * b.w + a.z * b.x,
   a.w * b.z + a.x * b.y - a.y * b.x + a.z * b.w⟩

/-- Quaternion conjugate: the rotation inverse for a unit quaternion. -/
def Quat.conj (a : Quat) : Quat := ⟨a.w, -a.x, -a.y, -a.z⟩

/-- Apply the rotation of a (unit) quaternion to a vector:
vector part of q * (0, v) * conj q. -/
def Quat.rotate (a : Quat) (v : Vec3) : Vec3 :=
  let p := (a.mul ⟨0, v.x, v.y, v.z⟩).mul a.conj
  ⟨p.x, p.y, p.z⟩

/-- An `OSVR_PoseState`: translation plus rotation quaternion. -/
structure Pose where
  translation : Vec3
  rotation : Quat
  deriving DecidableEq

/-- An Eigen::Isometry3d, represented by its rotation (as a unit
quaternion) and its translation. -/
structure Isometry3d where
  rot : Quat
  trans : Vec3
  deriving DecidableEq

/-- Composition of rigid transforms (Eigen operator* on Isometry3d). -/
def Isometry3d.comp (a b : Isometry3d) : Isometry3d :=
  ⟨a.rot.mul b.rot, a.trans + a.rot.rotate b.trans⟩

/-- Inverse of a rigid transform (Eigen Isometry3d::inverse), expressed
with the quaternion conjugate as rotation inverse. -/
def Isometry3d.inverse (a : Isometry3d) : Isometry3d :=
  ⟨a.rot.conj, -(a.rot.conj.rotate a.trans)⟩

/-- `osvr::util::fromPose`: build the rigid transform of an
`OSVR_PoseState`. -/
def fromPose (p : Pose) : Isometry3d := ⟨p.rotation, p.translation⟩

/-- An orientation promoted to a rigid transform with zero translation
(`Eigen::Isometry3d(fromQuat(orientation))`). -/
def Isometry3d.ofQuat (q : Quat) : Isometry3d := ⟨q, ⟨0, 0, 0⟩⟩

/-- The Kalman filter state (`ProcessModel::State`,
`pose_externalized_rotation::State`): a 12-dimensional state vector with
position in components 0..2, a separately held reference quaternion, and
a 12x12 error covariance. -/
structure FilterState where
  stateVector : Fin 12 → ℚ
  quat : Quat
  errorCovariance : Fin 12 → Fin 12 → ℚ
  deriving DecidableEq

/-- `getPosition()`: the position block (components 0..2) of the state
vector. -/
def FilterState.getPosition (s : FilterState) : Vec3 :=
  ⟨s.stateVector 0, s.stateVector 1, s.stateVector 2⟩

/-- Modelled from the spec: the EKF time/measurement updates
(`FlexibleKalmanFilter.h`, `PoseDampedConstantVelocity.h`) and the
one-euro filter output (`osvr/Util/EigenFilters.h`) are repository code
not present under src/.  Per the spec they are deterministic functions
of exactly the arguments shown, so they are carried as an explicit
parameter bundle; the claims verified here depend only on when and with
what arguments they are invoked.  `defaultNoiseAutocorrelation` is the
process model's default noise-autocorrelation vector (one entry per
velocity/angular-velocity axis); the one-euro state functions map the
full sequence of `(dt, sample)` inputs fed to the filter (most recent
first) to its current smoothed state. -/
structure ExternalFns where
  predict : FilterState → ℚ → FilterState
  correctOri : FilterState → Quat → FilterState
  correctPose : FilterState → Vec3 → Quat → FilterState
  defaultNoiseAutocorrelation : Fin 6 → ℚ
  oneEuroPosState : List (ℚ × Vec3) → Vec3
  oneEuroOriState : List (ℚ × Quat) → Quat

/-- `InitialStateError` from VideoIMUFusion.cpp: the 12 initial state
error entries placed on the diagonal of the initial covariance. -/
def InitialStateError : List ℚ := [1, 1, 1, 1, 1, 1, 1, 1, 1, 1, 1, 1]

/-- `VideoIMUFusion::RunningData`: the running-phase payload holding the
filter, the camera-to-room transform, the latest raw IMU orientation,
and the per-sensor last-seen timestamps.  `noiseAutocorrelation` is the
process model's noise-autocorrelation vector after the constructor's
adjustment. -/
structure RunningData where
  filter : FilterState
  noiseAutocorrelation : Fin 6 → ℚ
  cTr : Isometry3d
  orientation : Quat
  lastPosition : OSVRTimeValue
  lastIMU : OSVRTimeValue
  deriving DecidableEq

/-- `takeCameraPoseToRoom`: re-express a camera-frame pose in the room
frame, `m_cTr * fromPose(pose)`. -/
def RunningData.takeCameraPoseToRoom (rd : RunningData) (pose : Pose) : Isometry3d :=
  rd.cTr.comp (fromPose pose)

/-- The `RunningData` constructor: seeds the filter state vector to zero
except the position block (set to the room-frame pose translation), sets
the reference quaternion from the room-frame pose rotation, sets the
error covariance to the `InitialStateError` diagonal, and multiplies the
process model's noise autocorrelation by 0.5. -/
def RunningData.init (fns : ExternalFns) (cTr : Isometry3d) (initialIMU : Quat)
    (initialVideo : Pose) (lastPosition lastIMU : OSVRTimeValue) : RunningData :=
  let roomPose := cTr.comp (fromPose initialVideo)
  { filter :=
      { stateVector := fun i =>
          if i.val = 0 then roomPose.trans.x
          else if i.val = 1 then roomPose.trans.y
          else if i.val = 2 then roomPose.trans.z
          else 0,
        quat := roomPose.rot,
        errorCovariance := fun i j =>
          if i = j then InitialStateError.getD i.val 0 else 0 },
    noiseAutocorrelation := fun i => fns.defaultNoiseAutocorrelation i * (1 / 2),
    cTr := cTr,
    orientation := initialIMU,
    lastPosition := lastPosition,
    lastIMU := lastIMU }

/-- `RunningData::preReport`: compute `dt` from the given per-sensor
last-seen timestamp; if `dt <= 0` return failure with nothing changed,
otherwise advance the timestamp, run `predict(dt)`, and return success.
Result: (succeeded, new last-seen timestamp, new filter state). -/
def RunningData.preReport (fns : ExternalFns) (rd : RunningData)
    (timestamp lastv : OSVRTimeValue) : Bool × OSVRTimeValue × FilterState :=
  let dt := secondsElapsed lastv timestamp
  if dt ≤ 0 then (false, lastv, rd.filter)
  else (true, timestamp, fns.predict rd.filter dt)

/-- `RunningData::handleIMUReport`: store the raw orientation, then if
`preReport` succeeds, correct with the absolute orientation
measurement. -/
def RunningData.handleIMUReport (fns : ExternalFns) (rd : RunningData)
    (timestamp : OSVRTimeValue) (rotation : Quat) : RunningData :=
  let rd1 := { rd with orientation := rotation }
  let pr := rd1.preReport fns timestamp rd1.lastIMU
  if pr.1 then
    { rd1 with lastIMU := pr.2.1, filter := fns.correctOri pr.2.2 rotation }
  else
    { rd1 with lastIMU := pr.2.1, filter := pr.2.2 }

/-- `RunningData::handleVideoTrackerReport`: compute the room-frame pose,
then if `preReport` succeeds, correct with the absolute pose
measurement. -/
def RunningData.handleVideoTrackerReport (fns : ExternalFns) (rd : RunningData)
    (timestamp : OSVRTimeValue) (report : Pose) : RunningData :=
  let roomPose := rd.takeCameraPoseToRoom report
  let pr := rd.preReport fns timestamp rd.lastPosition
  if pr.1 then
    { rd with lastPosition := pr.2.1,
              filter := fns.correctPose pr.2.2 roomPose.trans roomPose.rot }
  else
    { rd with lastPosition := pr.2.1, filter := pr.2.2 }

/-- `VideoIMUFusion::StartupData`: the calibration accumulator.  The two
one-euro low-pass filters are carried as the sequences of `(dt, sample)`
inputs fed to them (most recent first); their numeric state is recovered
from these traces by the external one-euro state functions. -/
structure StartupData where
  reports : Nat
  last : OSVRTimeValue
  positionFilterTrace : List (ℚ × Vec3)
  orientationFilterTrace : List (ℚ × Quat)
  deriving DecidableEq

/-- The `StartupData` constructor: zero reports, `last` seeded with the
wall-clock time of construction (`time::getNow()`), fresh filters. -/
def StartupData.init (now : OSVRTimeValue) : StartupData :=
  { reports := 0, last := now, positionFilterTrace := [], orientationFilterTrace := [] }

/-- `REQUIRED_SAMPLES` from `StartupData`. -/
def REQUIRED_SAMPLES : Nat := 10

/-- `StartupData::handleReport`: compute `dt` since the last sample
(substituting 1 when non-positive), build the instantaneous
camera-to-room candidate `dTc.inverse() * Isometry3d(fromQuat(orientation))`,
feed its translation and rotation to the two low-pass filters, increment
the sample counter, and record the timestamp. -/
def StartupData.handleReport (sd : StartupData) (timestamp : OSVRTimeValue)
    (report : Pose) (orientation : Quat) : StartupData :=
  let dt0 := secondsElapsed sd.last timestamp
  let dt := if dt0 ≤ 0 then 1 else dt0
  let dTc := fromPose report
  let cTr := dTc.inverse.comp (Isometry3d.ofQuat orientation)
  { sd with
    positionFilterTrace := (dt, cTr.trans) :: sd.positionFilterTrace,
    orientationFilterTrace := (dt, cTr.rot) :: sd.orientationFilterTrace,
    reports := sd.reports + 1,
    last := timestamp }

/-- `StartupData::finished`: the counter has reached the required sample
count. -/
def StartupData.finished (sd : StartupData) : Bool :=
  decide (REQUIRED_SAMPLES ≤ sd.reports)

/-- `StartupData::getRoomToCamera`: the rigid transform assembled from
the two filters' current smoothed states. -/
def StartupData.getRoomToCamera (fns : ExternalFns) (sd : StartupData) : Isometry3d :=
  ⟨fns.oneEuroOriState sd.orientationFilterTrace,
   fns.oneEuroPosState sd.positionFilterTrace⟩

/-- The controller's lifecycle state (`VideoIMUFusion::State`). -/
inductive FusionState
  | AcquiringCameraPose
  | Running
  deriving DecidableEq

/-- A pose sent with `osvrDeviceTrackerSendPoseTimestamped`: the pose, the
sensor channel, and the timestamp it was tagged with. -/
structure Emission where
  timestamp : OSVRTimeValue
  rotation : Quat
  translation : Vec3
  channel : Nat
  deriving DecidableEq

/-- `FUSED_SENSOR_ID`: the primary fused-output channel. -/
def FUSED_SENSOR_ID : Nat := 0

/-- `TRANSFORMED_VIDEO_SENSOR_ID`: the diagnostic re-oriented video
channel. -/
def TRANSFORMED_VIDEO_SENSOR_ID : Nat := 1

/-- The `VideoIMUFusion` controller between callbacks: lifecycle state,
the optional startup accumulator and running payload (owning pointers in
the source, `none` when null), the client interfaces' last-known states
(`osvrGetOrientationState` / `osvrGetPoseState`, `none` until a first
report arrives), and the list of poses emitted so far (oldest first). -/
structure Controller where
  state : FusionState
  startupData : Option StartupData
  runningData : Option RunningData
  imuState : Option (OSVRTimeValue × Quat)
  videoState : Option (OSVRTimeValue × Pose)
  output : List Emission

/-- A sensor report delivered by the client runtime. -/
inductive Event
  | imuReport (timestamp : OSVRTimeValue) (rotation : Quat)
  | videoReport (timestamp : OSVRTimeValue) (pose : Pose)

/-- `VideoIMUFusion::enterCameraPoseAcquisitionState` at construction: a
fresh accumulator (with `last` seeded from the wall clock `now`) and the
`AcquiringCameraPose` state; no reports seen, nothing emitted. -/
def initController (now : OSVRTimeValue) : Controller :=
  { state := FusionState.AcquiringCameraPose,
    startupData := some (StartupData.init now),
    runningData := none,
    imuState := none,
    videoState := none,
    output := [] }

/-- `VideoIMUFusion::enterRunningState`: switch to `Running`, pull the
interfaces' current orientation and pose states, construct the
`RunningData` from them and the smoothed camera-to-room transform, and
destroy the accumulator.  (The source asserts both states are available;
when they are not — unreachable from the callback path — nothing is
changed.) -/
def enterRunningState (fns : ExternalFns) (c : Controller) (cTr : Isometry3d) :
    Controller :=
  match c.imuState, c.videoState with
  | some (oriTs, imuQ), some (posTs, videoP) =>
    { c with state := FusionState.Running,
             runningData :=
               some (RunningData.init fns cTr imuQ videoP posTs oriTs),
             startupData := none }
  | _, _ => c

/-- `VideoIMUFusion::handleVideoTrackerDataDuringStartup`: drop the
report when no orientation state is available yet; otherwise feed the
accumulator and, once it is finished, enter the running state with its
smoothed camera-to-room estimate. -/
def handleVideoTrackerDataDuringStartup (fns : ExternalFns) (c : Controller)
    (timestamp : OSVRTimeValue) (report : Pose) : Controller :=
  match c.imuState with
  | none => c
  | some (_, imuQ) =>
    match c.startupData with
    | none => c
    | some sd =>
      let sd1 := sd.handleReport timestamp report imuQ
      if sd1.finished then
        enterRunningState fns { c with startupData := some sd1 }
          (sd1.getRoomToCamera fns)
      else
        { c with startupData := some sd1 }

/-- `VideoIMUFusion::handleIMUData`: outside `Running` do nothing;
otherwise run the running-phase IMU handler and send the fused pose
(current filter quaternion and position) on the primary channel, tagged
with the report's timestamp. -/
def handleIMUData (fns : ExternalFns) (c : Controller)
    (timestamp : OSVRTimeValue) (rotation : Quat) : Controller :=
  if c.state ≠ FusionState.Running then c
  else
    match c.runningData with
    | none => c
    | some rd =>
      let rd1 := rd.handleIMUReport fns timestamp rotation
      { c with runningData := some rd1,
               output := c.output ++
                 [{ timestamp := timestamp,
                    rotation := rd1.filter.quat,
                    translation := rd1.filter.getPosition,
                    channel := FUSED_SENSOR_ID }] }

/-- `VideoIMUFusion::handleVideoTrackerData`: during acquisition defer to
the startup path; in `Running` run the running-phase video handler, send
the fused pose on the primary channel, and send the re-oriented video
pose on the diagnostic channel, both tagged with the report's
timestamp. -/
def handleVideoTrackerData (fns : ExternalFns) (c : Controller)
    (timestamp : OSVRTimeValue) (report : Pose) : Controller :=
  if c.state = FusionState.AcquiringCameraPose then
    handleVideoTrackerDataDuringStartup fns c timestamp report
  else
    match c.runningData with
    | none => c
    | some rd =>
      let rd1 := rd.handleVideoTrackerReport fns timestamp report
      let videoPose := rd1.takeCameraPoseToRoom report
      { c with runningData := some rd1,
               output := c.output ++
                 [{ timestamp := timestamp,
                    rotation := rd1.filter.quat,
                    translation := rd1.filter.getPosition,
                    channel := FUSED_SENSOR_ID },
                  { timestamp := timestamp,
                    rotation := videoPose.rot,
                    translation := videoPose.trans,
                    channel := TRANSFORMED_VIDEO_SENSOR_ID }] }

/-- One delivered report: the client runtime records the report as the
interface's last-known state, then invokes the registered callback. -/
def Controller.step (fns : ExternalFns) (c : Controller) (e : Event) : Controller :=
  match e with
  | Event.imuReport ts q =>
    handleIMUData fns { c with imuState := some (ts, q) } ts q
  | Event.videoReport ts p =>
    handleVideoTrackerData fns { c with videoState := some (ts, p) } ts p

/-- A run of the controller from construction over a sequence of
reports. -/
def Controller.run (fns : ExternalFns) (now : OSVRTimeValue)
    (es : List Event) : Controller :=
  es.foldl (Controller.step fns) (initController now)

/-- A trivial instantiation of the external function bundle, used to
evaluate the embedding on concrete inputs. -/
def idFns : ExternalFns :=
  { predict := fun s _ => s,
    correctOri := fun s _ => s,
    correctPose := fun s _ _ => s,
    defaultNoiseAutocorrelation := fun _ => 1,
    oneEuroPosState := fun _ => ⟨0, 0, 0⟩,
    oneEuroOriState := fun _ => ⟨1, 0, 0, 0⟩ }

/-- An instantiation of the external function bundle whose predict and
correct steps visibly mark the filter quaternion, so that a run shows
whether they were invoked. -/
def markFns : ExternalFns :=
  { predict := fun s _ => { s with quat := ⟨0, 1, 0, 0⟩ },
    correctOri := fun s _ => { s with quat := ⟨0, 0, 1, 0⟩ },
    correctPose := fun s _ _ => { s with quat := ⟨0, 0, 0, 1⟩ },
    defaultNoiseAutocorrelation := fun _ => 1,
    oneEuroPosState := fun _ => ⟨0, 0, 0⟩,
    oneEuroOriState := fun _ => ⟨1, 0, 0, 0⟩ }

/-- The identity quaternion. -/
def qId : Quat := ⟨1, 0, 0, 0⟩

/-- The identity pose. -/
def poseId : Pose := ⟨⟨0, 0, 0⟩, qId⟩

/-- The identity rigid transform. -/
def isoId : Isometry3d := ⟨qId, ⟨0, 0, 0⟩⟩

/-- A concrete running payload, built at time (10 s, 0 us). -/
def rdEx : RunningData :=
  RunningData.init idFns isoId qId poseId ⟨10, 0⟩ ⟨10, 0⟩

/-- A concrete controller in the `Running` state. -/
def cRun : Controller :=
  { state := FusionState.Running,
    startupData := none,
    runningData := some rdEx,
    imuState := some (⟨10, 0⟩, qId),
    videoState := some (⟨10, 0⟩, poseId),
    output := [] }

/-- A concrete startup accumulator one sample short of the threshold. -/
def sd9 : StartupData :=
  { reports := 9, last := ⟨0, 0⟩, positionFilterTrace := [],
    orientationFilterTrace := [] }

/-- A concrete controller still acquiring, with nine accepted samples and
an orientation state available. -/
def cAcq9 : Controller :=
  { state := FusionState.AcquiringCameraPose,
    startupData := some sd9,
    runningData := none,
    imuState := some (⟨0, 0⟩, qId),
    videoState := none,
    output := [] }

/-- C1 (amended): at the `RunningData` constructor the process model's
noise-autocorrelation scale is multiplied by 0.5, so the injected process
uncertainty per unit time is halved relative to the process model's
default, not doubled. -/
theorem noiseAutocorrelation_halved_at_startup (fns : ExternalFns)
    (cTr : Isometry3d) (imuQ : Quat) (vp : Pose)
    (posTs oriTs : OSVRTimeValue) (i : Fin 6) :
    (RunningData.init fns cTr imuQ vp posTs oriTs).noiseAutocorrelation i =
      fns.defaultNoiseAutocorrelation i / 2 := by
  simp [RunningData.init]
  ring

/-- C1 (counterexample): with default noise-autocorrelation entry 1, the
constructed running payload's entry is 1/2, not the doubled value 2 the
claim states. -/
theorem noiseAutocorrelation_not_doubled :
    ¬ ((RunningData.init idFns isoId qId poseId ⟨0, 0⟩ ⟨0, 0⟩).noiseAutocorrelation 0 =
        2 * idFns.defaultNoiseAutocorrelation 0) := by
  simp [RunningData.init, idFns]
  norm_num

/-- C6: in `AcquiringCameraPose`, an accepted pose report computes the
camera-to-room candidate as (inverse of the reported transform) composed
with the rigid transform of the IMU orientation, pushes its translation
into the position filter and its rotation into the orientation filter
with the same `dt`, increments the sample counter by one, and records the
report's timestamp. -/
theorem startup_handleReport_effects (sd : StartupData)
    (ts : OSVRTimeValue) (p : Pose) (q : Quat) :
    (sd.handleReport ts p q).positionFilterTrace =
      ((if secondsElapsed sd.last ts ≤ 0 then 1 else secondsElapsed sd.last ts),
        ((fromPose p).inverse.comp (Isometry3d.ofQuat q)).trans) ::
        sd.positionFilterTrace ∧
    (sd.handleReport ts p q).orientationFilterTrace =
      ((if secondsElapsed sd.last ts ≤ 0 then 1 else secondsElapsed sd.last ts),
        ((fromPose p).inverse.comp (Isometry3d.ofQuat q)).rot) ::
        sd.orientationFilterTrace ∧
    (sd.handleReport ts p q).reports = sd.reports + 1 ∧
    (sd.handleReport ts p q).last = ts := by
  refine ⟨?_, ?_, ?_, ?_⟩ <;> simp [StartupData.handleReport]

/-- C7 (counterexample): for an accumulator constructed at wall-clock
time (0 s) whose first report arrives at (5 s), the `dt` fed to the
low-pass filters is the elapsed 5 seconds, not the claimed default of
1. -/
theorem first_sample_dt_not_defaulted_to_one :
    (StartupData.init ⟨0, 0⟩).reports = 0 ∧
    ((StartupData.init ⟨0, 0⟩).handleReport ⟨5, 0⟩ poseId qId).positionFilterTrace.map
        Prod.fst = [5] ∧
    ((5 : ℚ) ≠ 1) := by
  have h5 : secondsElapsed ⟨0, 0⟩ ⟨5, 0⟩ = 5 := by
    norm_num [secondsElapsed]
  refine ⟨rfl, ?_, by norm_num⟩
  simp [StartupData.handleReport, StartupData.init, h5]

/-- C7 (amended): the `dt` fed to both low-pass filters is the elapsed
time since the previous accepted sample — seeded with the accumulator's
wall-clock construction time before any sample — with 1 substituted
whenever that elapsed time is non-positive (which covers the first sample
only when its timestamp does not exceed the construction time); the
sample is accepted and counted either way. -/
theorem startup_dt_substitution (sd : StartupData)
    (ts : OSVRTimeValue) (p : Pose) (q : Quat) (now : OSVRTimeValue) :
    (sd.handleReport ts p q).positionFilterTrace.map Prod.fst =
      (if secondsElapsed sd.last ts ≤ 0 then 1 else secondsElapsed sd.last ts) ::
        sd.positionFilterTrace.map Prod.fst ∧
    (sd.handleReport ts p q).orientationFilterTrace.map Prod.fst =
      (if secondsElapsed sd.last ts ≤ 0 then 1 else secondsElapsed sd.last ts) ::
        sd.orientationFilterTrace.map Prod.fst ∧
    (sd.handleReport ts p q).reports = sd.reports + 1 ∧
    (StartupData.init now).last = now ∧
    (StartupData.init now).reports = 0 := by
  refine ⟨?_, ?_, ?_, rfl, rfl⟩ <;> simp [StartupData.handleReport]

/-- C4: in `Running`, a report whose elapsed time since the same sensor's
last accepted report is non-positive is skipped entirely — the result is
independent of the predict/correct functions (only the raw IMU
orientation cache changes for an orientation report), the filter state
and the sensor's last-seen timestamp are untouched; with positive
elapsed time `dt`, `predict(dt)` runs, the sensor's timestamp advances to
the report's, and the corresponding correction is applied. -/
theorem nonpositive_dt_skips_report_entirely (fns : ExternalFns)
    (rd : RunningData) (ts : OSVRTimeValue) (q : Quat) (p : Pose) :
    (secondsElapsed rd.lastIMU ts ≤ 0 →
      rd.handleIMUReport fns ts q = { rd with orientation := q }) ∧
    (0 < secondsElapsed rd.lastIMU ts →
      rd.handleIMUReport fns ts q =
        { rd with orientation := q, lastIMU := ts,
                  filter := fns.correctOri
                    (fns.predict rd.filter (secondsElapsed rd.lastIMU ts)) q }) ∧
    (secondsElapsed rd.lastPosition ts ≤ 0 →
      rd.handleVideoTrackerReport fns ts p = rd) ∧
    (0 < secondsElapsed rd.lastPosition ts →
      rd.handleVideoTrackerReport fns ts p =
        { rd with lastPosition := ts,
                  filter := fns.correctPose
                    (fns.predict rd.filter (secondsElapsed rd.lastPosition ts))
                    (rd.takeCameraPoseToRoom p).trans
                    (rd.takeCameraPoseToRoom p).rot }) := by
  refine ⟨?_, ?_, ?_, ?_⟩
  · intro h
    simp [RunningData.handleIMUReport, RunningData.preReport, h]
  · intro h
    simp [RunningData.handleIMUReport, RunningData.preReport, not_le.mpr h]
  · intro h
    simp [RunningData.handleVideoTrackerReport, RunningData.preReport, h]
  · intro h
    simp [RunningData.handleVideoTrackerReport, RunningData.preReport,
      not_le.mpr h]

/-- Witness for C4: at the concrete running payload with last IMU
timestamp (10 s), an orientation report stamped (5 s) is skipped entirely
and one stamped (20 s) goes through predict and correct. -/
theorem nonpositive_dt_skips_report_entirely_witness :
    RunningData.handleIMUReport markFns rdEx ⟨5, 0⟩ qId =
      { rdEx with orientation := qId } ∧
    RunningData.handleIMUReport markFns rdEx ⟨20, 0⟩ qId =
      { rdEx with orientation := qId, lastIMU := ⟨20, 0⟩,
                  filter := markFns.correctOri
                    (markFns.predict rdEx.filter
                      (secondsElapsed rdEx.lastIMU ⟨20, 0⟩)) qId } :=
  ⟨(nonpositive_dt_skips_report_entirely markFns rdEx ⟨5, 0⟩ qId poseId).1
      (by norm_num [rdEx, RunningData.init, secondsElapsed]),
   (nonpositive_dt_skips_report_entirely markFns rdEx ⟨20, 0⟩ qId poseId).2.1
      (by norm_num [rdEx, RunningData.init, secondsElapsed])⟩

/-- C5: the newly constructed running filter is seeded with the state
vector all zero except the position block, which holds the translation of
the smoothed camera-to-room transform composed with the latest video
pose; the reference quaternion holds that composed pose's rotation; and
the error covariance is the diagonal matrix with every diagonal entry
1. -/
theorem running_filter_seeding (fns : ExternalFns) (cTr : Isometry3d)
    (imuQ : Quat) (vp : Pose) (posTs oriTs : OSVRTimeValue) :
    ((RunningData.init fns cTr imuQ vp posTs oriTs).filter.stateVector 0 =
        (cTr.comp (fromPose vp)).trans.x) ∧
    ((RunningData.init fns cTr imuQ vp posTs oriTs).filter.stateVector 1 =
        (cTr.comp (fromPose vp)).trans.y) ∧
    ((RunningData.init fns cTr imuQ vp posTs oriTs).filter.stateVector 2 =
        (cTr.comp (fromPose vp)).trans.z) ∧
    (∀ i : Fin 12, 3 ≤ i.val →
        (RunningData.init fns cTr imuQ vp posTs oriTs).filter.stateVector i = 0) ∧
    ((RunningData.init fns cTr imuQ vp posTs oriTs).filter.quat =
        (cTr.comp (fromPose vp)).rot) ∧
    (∀ i j : Fin 12,
        (RunningData.init fns cTr imuQ vp posTs oriTs).filter.errorCovariance i j =
          if i = j then 1 else 0) := by
  refine ⟨?_, ?_, ?_, ?_, ?_, ?_⟩
  · simp [RunningData.init]
  · simp [RunningData.init]
  · simp [RunningData.init]
  · intro i hi
    have h0 : ¬ i.val = 0 := by omega
    have h1 : ¬ i.val = 1 := by omega
    have h2 : ¬ i.val = 2 := by omega
    simp [RunningData.init, h0, h1, h2]
  · simp [RunningData.init]
  · intro i j
    by_cases h : i = j
    · subst h
      simp only [RunningData.init, if_pos]
      fin_cases i <;> rfl
    · simp [RunningData.init, h]

/-- Witness for C5: on concrete seed data, the state vector is zero at
component 3. -/
theorem running_filter_seeding_witness :
    (RunningData.init idFns isoId qId poseId ⟨0, 0⟩ ⟨0, 0⟩).filter.stateVector 3 = 0 :=
  (running_filter_seeding idFns isoId qId poseId ⟨0, 0⟩ ⟨0, 0⟩).2.2.2.1 3
    (by decide)

/-- C10: an orientation report delivered while the controller is not in
`Running` leaves the controller untouched except for the client
interface's last-known orientation state: no accumulator feed, no filter
change, no emission. -/
theorem imu_report_noop_outside_running (fns : ExternalFns) (c : Controller)
    (ts : OSVRTimeValue) (q : Quat)
    (hs : c.state ≠ FusionState.Running) :
    Controller.step fns c (Event.imuReport ts q) =
      { c with imuState := some (ts, q) } := by
  simp [Controller.step, handleIMUData, hs]

/-- Witness for C10: a freshly constructed controller absorbs an IMU
report into the interface state only. -/
theorem imu_report_noop_outside_running_witness :
    Controller.step idFns (initController ⟨0, 0⟩) (Event.imuReport ⟨1, 0⟩ qId) =
      { initController ⟨0, 0⟩ with imuState := some (⟨1, 0⟩, qId) } :=
  imu_report_noop_outside_running idFns (initController ⟨0, 0⟩) ⟨1, 0⟩ qId
    (by simp [initController])

/-- C8: while acquiring, a pose report arriving before any orientation
report is available changes nothing but the interface's last-known pose
state: the accumulator (counter, filters, last-sample timestamp) is
untouched and the controller stays in `AcquiringCameraPose`. -/
theorem pose_report_without_orientation_dropped (fns : ExternalFns)
    (c : Controller) (ts : OSVRTimeValue) (p : Pose)
    (hs : c.state = FusionState.AcquiringCameraPose)
    (hi : c.imuState = none) :
    Controller.step fns c (Event.videoReport ts p) =
      { c with videoState := some (ts, p) } := by
  simp [Controller.step, handleVideoTrackerData,
    handleVideoTrackerDataDuringStartup, hs, hi]

/-- Witness for C8: a freshly constructed controller drops a pose report
that precedes any orientation report. -/
theorem pose_report_without_orientation_dropped_witness :
    Controller.step idFns (initController ⟨0, 0⟩) (Event.videoReport ⟨1, 0⟩ poseId) =
      { initController ⟨0, 0⟩ with videoState := some (⟨1, 0⟩, poseId) } :=
  pose_report_without_orientation_dropped idFns (initController ⟨0, 0⟩) ⟨1, 0⟩
    poseId rfl rfl

/-- C2 (amended): in `Running`, every report (orientation or pose) causes
exactly one fused-pose emission on the primary channel, tagged with the
report's timestamp and carrying the filter's current quaternion and
position — whether or not the correction occurred (a pose report also
emits the re-oriented video pose on the diagnostic channel). -/
theorem fused_pose_emitted_once_per_running_report (fns : ExternalFns)
    (c : Controller) (rd : RunningData) (ts : OSVRTimeValue) (q : Quat) (p : Pose)
    (hs : c.state = FusionState.Running) (hr : c.runningData = some rd) :
    ((Controller.step fns c (Event.imuReport ts q)).output =
      c.output ++
        [{ timestamp := ts,
           rotation := (rd.handleIMUReport fns ts q).filter.quat,
           translation := (rd.handleIMUReport fns ts q).filter.getPosition,
           channel := FUSED_SENSOR_ID }]) ∧
    ((Controller.step fns c (Event.videoReport ts p)).output =
      c.output ++
        [{ timestamp := ts,
           rotation := (rd.handleVideoTrackerReport fns ts p).filter.quat,
           translation := (rd.handleVideoTrackerReport fns ts p).filter.getPosition,
           channel := FUSED_SENSOR_ID },
         { timestamp := ts,
           rotation := ((rd.handleVideoTrackerReport fns ts p).takeCameraPoseToRoom p).rot,
           translation := ((rd.handleVideoTrackerReport fns ts p).takeCameraPoseToRoom p).trans,
           channel := TRANSFORMED_VIDEO_SENSOR_ID }]) := by
  constructor
  · simp [Controller.step, handleIMUData, hs, hr]
  · simp [Controller.step, handleVideoTrackerData, hs, hr]

/-- Witness for C2 (amended): applied to the concrete running controller
with a report whose elapsed time is negative. -/
theorem fused_pose_emitted_once_per_running_report_witness :
    (Controller.step idFns cRun (Event.imuReport ⟨5, 0⟩ qId)).output =
      cRun.output ++
        [{ timestamp := ⟨5, 0⟩,
           rotation := (rdEx.handleIMUReport idFns ⟨5, 0⟩ qId).filter.quat,
           translation := (rdEx.handleIMUReport idFns ⟨5, 0⟩ qId).filter.getPosition,
           channel := FUSED_SENSOR_ID }] :=
  (fused_pose_emitted_once_per_running_report idFns cRun rdEx ⟨5, 0⟩ qId poseId
    rfl rfl).1

/-- C2 (counterexample): at the concrete running controller, an
orientation report stamped before the last accepted IMU report is skipped
(the filter and the IMU timestamp are untouched, under measurably marking
predict/correct functions), yet one fused pose is still emitted on the
primary channel. -/
theorem fused_pose_emitted_despite_skipped_correction :
    secondsElapsed rdEx.lastIMU ⟨5, 0⟩ ≤ 0 ∧
    (rdEx.handleIMUReport markFns ⟨5, 0⟩ qId).filter = rdEx.filter ∧
    (rdEx.handleIMUReport markFns ⟨5, 0⟩ qId).lastIMU = rdEx.lastIMU ∧
    (Controller.step markFns cRun (Event.imuReport ⟨5, 0⟩ qId)).output.map
        Emission.channel = [FUSED_SENSOR_ID] := by
  have hdt : secondsElapsed rdEx.lastIMU ⟨5, 0⟩ ≤ 0 := by
    norm_num [rdEx, RunningData.init, secondsElapsed]
  have hskip : rdEx.handleIMUReport markFns ⟨5, 0⟩ qId =
      { rdEx with orientation := qId } := by
    simp [RunningData.handleIMUReport, RunningData.preReport, hdt]
  refine ⟨hdt, by rw [hskip], by rw [hskip], ?_⟩
  simp [Controller.step, handleIMUData, cRun]

/-- C3: the controller starts in `AcquiringCameraPose`; `Running` is
terminal (no event leaves it); while acquiring with accumulator `sd`, a
pose report moves the controller to `Running` exactly when an orientation
state is available and the incremented sample counter reaches
`REQUIRED_SAMPLES` (10); an orientation report never leaves
`AcquiringCameraPose`. -/
theorem lifecycle_transitions_once_at_threshold :
    (∀ now, (initController now).state = FusionState.AcquiringCameraPose) ∧
    (∀ (fns : ExternalFns) (c : Controller) (e : Event),
        c.state = FusionState.Running →
        (Controller.step fns c e).state = FusionState.Running) ∧
    (∀ (fns : ExternalFns) (c : Controller) (sd : StartupData)
        (ts : OSVRTimeValue) (p : Pose),
        c.state = FusionState.AcquiringCameraPose →
        c.startupData = some sd →
        ((Controller.step fns c (Event.videoReport ts p)).state =
            FusionState.Running ↔
          c.imuState.isSome = true ∧ REQUIRED_SAMPLES ≤ sd.reports + 1)) ∧
    (∀ (fns : ExternalFns) (c : Controller) (ts : OSVRTimeValue) (q : Quat),
        c.state = FusionState.AcquiringCameraPose →
        (Controller.step fns c (Event.imuReport ts q)).state =
          FusionState.AcquiringCameraPose) := by
  refine ⟨fun now => rfl, ?_, ?_, ?_⟩
  · intro fns c e hs
    cases e with
    | imuReport ts q =>
      cases hrd : c.runningData with
      | none => simp [Controller.step, handleIMUData, hs, hrd]
      | some rd => simp [Controller.step, handleIMUData, hs, hrd]
    | videoReport ts p =>
      cases hrd : c.runningData with
      | none => simp [Controller.step, handleVideoTrackerData, hs, hrd]
      | some rd => simp [Controller.step, handleVideoTrackerData, hs, hrd]
  · intro fns c sd ts p hs hsd
    cases him : c.imuState with
    | none =>
      simp [Controller.step, handleVideoTrackerData,
        handleVideoTrackerDataDuringStartup, hs, him, hsd]
    | some pr =>
      obtain ⟨ots, oq⟩ := pr
      by_cases hf : REQUIRED_SAMPLES ≤ sd.reports + 1
      · simp [Controller.step, handleVideoTrackerData,
          handleVideoTrackerDataDuringStartup, hs, him, hsd,
          StartupData.finished, StartupData.handleReport, hf, enterRunningState]
      · simp [Controller.step, handleVideoTrackerData,
          handleVideoTrackerDataDuringStartup, hs, him, hsd,
          StartupData.finished, StartupData.handleReport, hf]
  · intro fns c ts q hs
    simp [Controller.step, handleIMUData, hs]

/-- Witness for C3: at the concrete acquiring controller with nine
accepted samples and an available orientation state, the next pose report
transitions to `Running` precisely per the threshold condition. -/
theorem lifecycle_transitions_once_at_threshold_witness :
    (Controller.step idFns cAcq9 (Event.videoReport ⟨1, 0⟩ poseId)).state =
        FusionState.Running ↔
      (cAcq9.imuState.isSome = true ∧ REQUIRED_SAMPLES ≤ sd9.reports + 1) :=
  lifecycle_transitions_once_at_threshold.2.2.1 idFns cAcq9 sd9 ⟨1, 0⟩ poseId
    rfl rfl

/-- The lifecycle-payload invariant: while acquiring, the startup
accumulator exists and no running payload does; while running, the
running payload exists and the accumulator has been destroyed. -/
def LifecycleInv (c : Controller) : Prop :=
  (c.state = FusionState.AcquiringCameraPose →
      c.startupData.isSome = true ∧ c.runningData.isNone = true) ∧
  (c.state = FusionState.Running →
      c.runningData.isSome = true ∧ c.startupData.isNone = true)

/-- C9: between callbacks the controller holds exactly one lifecycle
payload: the invariant holds at construction, is preserved by every
report, and forces exactly one of the accumulator and the running payload
to exist. -/
theorem exactly_one_lifecycle_payload :
    (∀ now, LifecycleInv (initController now)) ∧
    (∀ (fns : ExternalFns) (c : Controller) (e : Event),
        LifecycleInv c → LifecycleInv (Controller.step fns c e)) ∧
    (∀ c : Controller, LifecycleInv c →
        (c.startupData.isSome = true ∧ c.runningData.isNone = true) ∨
        (c.runningData.isSome = true ∧ c.startupData.isNone = true)) := by
  refine ⟨?_, ?_, ?_⟩
  · intro now
    constructor <;> intro h <;> simp [initController] at h ⊢
  · intro fns c e hInv
    obtain ⟨hA, hR⟩ := hInv
    cases e with
    | imuReport ts q =>
      cases hcs : c.state with
      | AcquiringCameraPose =>
        have h := hA hcs
        constructor <;> intro hg <;>
          simp [Controller.step, handleIMUData, hcs] at hg ⊢
        simpa using h
      | Running =>
        have h := hR hcs
        cases hrd : c.runningData with
        | none => rw [hrd] at h; simp at h
        | some rd =>
          constructor <;> intro hg <;>
            simp [Controller.step, handleIMUData, hcs, hrd] at hg ⊢
          simpa using h.2
    | videoReport ts p =>
      cases hcs : c.state with
      | Running =>
        have h := hR hcs
        cases hrd : c.runningData with
        | none => rw [hrd] at h; simp at h
        | some rd =>
          constructor <;> intro hg <;>
            simp [Controller.step, handleVideoTrackerData, hcs, hrd] at hg ⊢
          simpa using h.2
      | AcquiringCameraPose =>
        have h := hA hcs
        cases hsd : c.startupData with
        | none => rw [hsd] at h; simp at h
        | some sd =>
          cases him : c.imuState with
          | none =>
            constructor <;> intro hg <;>
              simp [Controller.step, handleVideoTrackerData,
                handleVideoTrackerDataDuringStartup, hcs, hsd, him] at hg ⊢
            simpa using h.2
          | some pr =>
            obtain ⟨ots, oq⟩ := pr
            by_cases hf : REQUIRED_SAMPLES ≤ sd.reports + 1
            · constructor <;> intro hg <;>
                simp [Controller.step, handleVideoTrackerData,
                  handleVideoTrackerDataDuringStartup, hcs, hsd, him,
                  StartupData.finished, StartupData.handleReport, hf,
                  enterRunningState] at hg ⊢
            · constructor <;> intro hg <;>
                simp [Controller.step, handleVideoTrackerData,
                  handleVideoTrackerDataDuringStartup, hcs, hsd, him,
                  StartupData.finished, StartupData.handleReport, hf] at hg ⊢
              simpa using h.2
  · intro c h
    cases hcs : c.state with
    | AcquiringCameraPose => exact Or.inl (h.1 hcs)
    | Running => exact Or.inr (h.2 hcs)

/-- Witness for C9: the invariant is preserved by a concrete report at
the concrete running controller. -/
theorem exactly_one_lifecycle_payload_witness :
    LifecycleInv (Controller.step idFns cRun (Event.imuReport ⟨20, 0⟩ qId)) :=
  exactly_one_lifecycle_payload.2.1 idFns cRun (Event.imuReport ⟨20, 0⟩ qId)
    ⟨by intro h; simp [cRun] at h, by intro h; simp [cRun]⟩
